import Mathlib

/-!
Shallow embedding of `src/CellType.h` from the readxl repository: the cell-type
classifier, the date-format detector, the column-type resolver, and the
skip-column filter, together with theorems settling the specification claims.
-/

/-- Embedding of the C++ `enum CellType` (`CELL_BLANK, CELL_DATE, CELL_NUMERIC,
CELL_TEXT`), in declaration order so that ordinals match the C++ enum values. -/
inductive CellType where
  | CELL_BLANK
  | CELL_DATE
  | CELL_NUMERIC
  | CELL_TEXT
deriving DecidableEq, Repr

open CellType

/-- Embedding of the C++ `enum ColType` (`COL_BLANK, COL_DATE, COL_NUMERIC,
COL_TEXT, COL_LIST, COL_SKIP`), in declaration order. -/
inductive ColType where
  | COL_BLANK
  | COL_DATE
  | COL_NUMERIC
  | COL_TEXT
  | COL_LIST
  | COL_SKIP
deriving DecidableEq, Repr

open ColType

/-- The underlying C enum value (ordinal) of a `CellType`. -/
def CellType.toOrdinal : CellType → Nat
  | CELL_BLANK => 0
  | CELL_DATE => 1
  | CELL_NUMERIC => 2
  | CELL_TEXT => 3

/-- The underlying C enum value (ordinal) of a `ColType`. -/
def ColType.toOrdinal : ColType → Nat
  | COL_BLANK => 0
  | COL_DATE => 1
  | COL_NUMERIC => 2
  | COL_TEXT => 3
  | COL_LIST => 4
  | COL_SKIP => 5

/-- The `ColType` whose C enum value is the given ordinal.  Values above 5 do
not occur as `ColType` ordinals; the catch-all arm is unreachable from
`as_ColType` since `CellType` ordinals are 0..3. -/
def ColType.ofOrdinal : Nat → ColType
  | 0 => COL_BLANK
  | 1 => COL_DATE
  | 2 => COL_NUMERIC
  | 3 => COL_TEXT
  | 4 => COL_LIST
  | _ => COL_SKIP

/-- Embedding of `as_ColType`: the C++ code performs a plain cast
`(ColType) cell`, i.e. it reinterprets the underlying enum ordinal. -/
def as_ColType (cell : CellType) : ColType :=
  ColType.ofOrdinal cell.toOrdinal

/-- The single string-to-`ColType` step of the `if`/`else if` chain inside
`colTypeStrings`: exact, case-sensitive string comparison; `none` for the
final `else` branch (which in C++ raises `Rcpp::stop`). -/
def colTypeOfString (type : String) : Option ColType :=
  if type = "blank" then some COL_BLANK
  else if type = "date" then some COL_DATE
  else if type = "numeric" then some COL_NUMERIC
  else if type = "text" then some COL_TEXT
  else if type = "list" then some COL_LIST
  else if type = "skip" then some COL_SKIP
  else none

/-- The loop of `colTypeStrings`, carrying the 0-based loop index `i`.  The
C++ `Rcpp::stop("Unknown type '%s' at position %i", type, i + 1)` aborts the
whole call, embedded as `Except.error` with the formatted message. -/
def colTypeStringsFrom (i : Nat) : List String → Except String (List ColType)
  | [] => Except.ok []
  | s :: rest =>
    match colTypeOfString s with
    | some t => Except.map (fun ts => t :: ts) (colTypeStringsFrom (i + 1) rest)
    | none =>
      Except.error ("Unknown type \x27" ++ s ++ "\x27 at position " ++ toString (i + 1))

/-- Embedding of `colTypeStrings` (the spec calls it `parseColumnTypes`):
maps each input string to a `ColType`, failing on the first string outside
the fixed vocabulary. -/
def colTypeStrings (x : List String) : Except String (List ColType) :=
  colTypeStringsFrom 0 x

/-- Embedding of `colTypeDesc` (the spec calls it `describe`).  The C++
`switch` covers every `ColType` constructor, so the trailing `return "???"`
is unreachable and does not appear here. -/
def colTypeDesc : ColType → String
  | COL_BLANK => "blank"
  | COL_DATE => "date"
  | COL_NUMERIC => "numeric"
  | COL_TEXT => "text"
  | COL_LIST => "list"
  | COL_SKIP => "skip"

/-- The fixed user-facing column-type vocabulary of the spec. -/
def colTypeVocab : List String := ["blank", "date", "numeric", "text", "list", "skip"]

/-- Embedding of `isDateTime`: built-in date/time format identifiers lie in
five fixed inclusive ranges; other identifiers below 164 are built-in
non-date formats; identifiers at or above 164 are custom formats, date iff
present in `custom` (C++ `custom.count(id) > 0` on a `std::set<int>`,
embedded as membership in a duplicate-free-irrelevant list). -/
def isDateTime (id : Int) (custom : List Int) : Bool :=
  if (id ≥ 14 && id ≤ 22) ||
     (id ≥ 27 && id ≤ 36) ||
     (id ≥ 45 && id ≤ 47) ||
     (id ≥ 50 && id ≤ 58) ||
     (id ≥ 71 && id ≤ 81) then
    true
  else if id < 164 then
    false
  else
    custom.contains id

/-- The fields of `xls::st_cell::st_cell_data` used by `cellType`:
`id` the record kind, `d` the numeric (double) payload, `str` the string
payload, `l` the formula-result discriminant (`0` means numeric cached
result), `xf` the style index. -/
structure CellData where
  id : Nat
  d : Float
  str : String
  l : Nat
  xf : Nat

/-- Modelled from the spec: the `StringSet` missing-value matcher
(`StringSet.h`, not under `src/`).  It exposes the two overloads `cellType`
calls: membership of a string payload and membership of a numeric (double)
payload rendered as text. -/
structure StringSet where
  containsStr : String → Bool
  containsNum : Float → Bool

/-- Embedding of `cellType` (the spec calls it `classifyCell`).  The style
table `styles` is `none` when the C++ pointer is `NULL`; when present it is
the lookup `cell.xf ↦ styles->xf[cell.xf].format` as a total function (the
source performs the array lookup with no bounds check).  The C++ `switch` on
`cell.id` is the chain of disjunctive tests below; the side effect
`Rcpp::Rcout << "Unknown type: " << cell.id << "\n"` in the default arm is
embedded as the second component, the list of lines printed. -/
def cellType (cell : CellData) (styles : Option (Nat → Int))
    (customDateFormats : List Int) (na : StringSet) : CellType × List String :=
  if cell.id = 253 ∨ cell.id = 516 then -- LabelSst, Label
    (if na.containsStr cell.str then CELL_BLANK else CELL_TEXT, [])
  else if cell.id = 6 ∨ cell.id = 1030 then -- formula (1030: Apple Numbers bug)
    (if cell.l = 0 then
      if na.containsNum cell.d then CELL_BLANK else CELL_NUMERIC
    else
      if na.containsStr cell.str then CELL_BLANK else CELL_TEXT, [])
  else if cell.id = 189 ∨ cell.id = 515 ∨ cell.id = 638 then -- MulRk, Number, Rk
    (if na.containsNum cell.d then CELL_BLANK
     else
       match styles with
       | none => CELL_NUMERIC
       | some xf =>
         if isDateTime (xf cell.xf) customDateFormats then CELL_DATE else CELL_NUMERIC, [])
  else if cell.id = 190 ∨ cell.id = 513 then -- MulBlank, Blank
    (CELL_BLANK, [])
  else
    (CELL_NUMERIC, ["Unknown type: " ++ toString cell.id ++ "\n"])

/-- Embedding of `removeSkippedColumns` (the spec calls it
`dropSkippedColumns`): walk the three sequences in step, keeping each
column/name pair whose type is not `COL_SKIP`, in order.  Columns are
polymorphic in `α` (the C++ columns are opaque `Rcpp::RObject`s that are
copied, not inspected). -/
def removeSkippedColumns {α : Type} : List α → List String → List ColType → List α × List String
  | c :: cs, n :: ns, t :: ts =>
    let r := removeSkippedColumns cs ns ts
    if t = COL_SKIP then r else (c :: r.1, n :: r.2)
  | _, _, _ => ([], [])

/-- A missing-value matcher that matches nothing (used to instantiate
universally quantified theorems at a concrete input). -/
def naFalse : StringSet := ⟨fun _ => false, fun _ => false⟩

/-- A missing-value matcher that matches everything. -/
def naTrue : StringSet := ⟨fun _ => true, fun _ => true⟩

/-- Claim C2: every format identifier in the five built-in date ranges
[14,22], [27,36], [45,47], [50,58], [71,81] is a date/time format for every
custom set, and every identifier below 164 outside those ranges is not, for
every custom set.  (Totality over all integers holds by construction:
`isDateTime` is a total function.) -/
theorem isDateTime_builtin_ranges (f : Int) (custom : List Int) :
    (((14 ≤ f ∧ f ≤ 22) ∨ (27 ≤ f ∧ f ≤ 36) ∨ (45 ≤ f ∧ f ≤ 47) ∨
      (50 ≤ f ∧ f ≤ 58) ∨ (71 ≤ f ∧ f ≤ 81)) → isDateTime f custom = true) ∧
    (f < 164 →
      ¬((14 ≤ f ∧ f ≤ 22) ∨ (27 ≤ f ∧ f ≤ 36) ∨ (45 ≤ f ∧ f ≤ 47) ∨
        (50 ≤ f ∧ f ≤ 58) ∨ (71 ≤ f ∧ f ≤ 81)) → isDateTime f custom = false) := by
  constructor
  · intro h
    rw [isDateTime, if_pos]
    simp only [Bool.or_eq_true, Bool.and_eq_true, decide_eq_true_eq, ge_iff_le]
    tauto
  · intro h164 hnot
    rw [isDateTime, if_neg, if_pos h164]
    simp only [Bool.or_eq_true, Bool.and_eq_true, decide_eq_true_eq, ge_iff_le]
    tauto

/-- Witness for C2 at the concrete identifiers 16 (in range, a date) and 100
(below 164, outside every range, not a date). -/
theorem isDateTime_builtin_ranges_witness :
    ((14 ≤ (16 : Int) ∧ (16 : Int) ≤ 22) ∨ (27 ≤ (16 : Int) ∧ (16 : Int) ≤ 36) ∨
      (45 ≤ (16 : Int) ∧ (16 : Int) ≤ 47) ∨ (50 ≤ (16 : Int) ∧ (16 : Int) ≤ 58) ∨
      (71 ≤ (16 : Int) ∧ (16 : Int) ≤ 81)) ∧
    isDateTime 16 [] = true ∧
    (100 : Int) < 164 ∧
    isDateTime 100 [] = false :=
  ⟨by decide, (isDateTime_builtin_ranges 16 []).1 (by decide), by decide,
    (isDateTime_builtin_ranges 100 []).2 (by decide) (by decide)⟩

/-- Claim C3: for every identifier at or above 164, `isDateTime` holds iff
the identifier belongs to the custom date-format set. -/
theorem isDateTime_custom (f : Int) (custom : List Int) (h : 164 ≤ f) :
    (isDateTime f custom = true ↔ f ∈ custom) := by
  rw [isDateTime, if_neg, if_neg (by omega)]
  · exact List.elem_iff
  · simp only [Bool.or_eq_true, Bool.and_eq_true, decide_eq_true_eq, ge_iff_le]
    omega

/-- Witness for C3 at f = 164 with custom set containing 164, and f = 200
with the same set (not a member). -/
theorem isDateTime_custom_witness :
    164 ≤ (164 : Int) ∧ (isDateTime 164 [164] = true ↔ (164 : Int) ∈ [(164 : Int)]) ∧
    164 ≤ (200 : Int) ∧ (isDateTime 200 [164] = true ↔ (200 : Int) ∈ [(164 : Int)]) :=
  ⟨by decide, isDateTime_custom 164 [164] (by decide),
    by decide, isDateTime_custom 200 [164] (by decide)⟩

/-- Claim C9: `as_ColType` preserves the enum ordinal (it embeds the C++
plain cast) and maps each of the four `CellType` constructors to the
like-named `ColType` constructor, which is exactly the statement that the
first four `ColType` ordinals match the `CellType` ordinals. -/
theorem as_ColType_ordinal :
    (∀ c : CellType, (as_ColType c).toOrdinal = c.toOrdinal) ∧
    as_ColType CELL_BLANK = COL_BLANK ∧
    as_ColType CELL_DATE = COL_DATE ∧
    as_ColType CELL_NUMERIC = COL_NUMERIC ∧
    as_ColType CELL_TEXT = COL_TEXT :=
  ⟨fun c => by cases c <;> rfl, rfl, rfl, rfl, rfl⟩

/-- Claim C5: `colTypeDesc` is the exact inverse of the string-to-type
mapping: parsing any vocabulary string and describing the result gives the
string back, and describing any `ColType` and parsing the description gives
the `ColType` back. -/
theorem colTypeDesc_inverse :
    (∀ s ∈ colTypeVocab,
      Except.map (fun ts => List.map colTypeDesc ts) (colTypeStrings [s]) = Except.ok [s]) ∧
    (∀ t : ColType, colTypeOfString (colTypeDesc t) = some t) := by
  constructor
  · intro s hs
    simp only [colTypeVocab, List.mem_cons, List.not_mem_nil, or_false] at hs
    rcases hs with rfl | rfl | rfl | rfl | rfl | rfl <;> rfl
  · intro t
    cases t <;> rfl

/-- Witness for C5 at the vocabulary string "date". -/
theorem colTypeDesc_inverse_witness :
    "date" ∈ colTypeVocab ∧
    Except.map (fun ts => List.map colTypeDesc ts) (colTypeStrings ["date"]) =
      Except.ok ["date"] :=
  ⟨by decide, colTypeDesc_inverse.1 "date" (by decide)⟩

/-- Claim C1: classifying a numeric-value record (id 189, 515 or 638) yields
Blank when the numeric payload matches the NA matcher; otherwise Numeric
when the style table is absent; otherwise Date or Numeric according to
`isDateTime` on the format identifier looked up at the record's style
index.  No diagnostic is printed. -/
theorem cellType_numeric_records (cell : CellData) (styles : Option (Nat → Int))
    (custom : List Int) (na : StringSet)
    (h : cell.id = 189 ∨ cell.id = 515 ∨ cell.id = 638) :
    cellType cell styles custom na =
      (if na.containsNum cell.d then CELL_BLANK
       else
         match styles with
         | none => CELL_NUMERIC
         | some xf =>
           if isDateTime (xf cell.xf) custom then CELL_DATE else CELL_NUMERIC, []) := by
  have hA : ¬(cell.id = 253 ∨ cell.id = 516) := by rcases h with h | h | h <;> simp [h]
  have hB : ¬(cell.id = 6 ∨ cell.id = 1030) := by rcases h with h | h | h <;> simp [h]
  unfold cellType
  rw [if_neg hA, if_neg hB, if_pos h]

/-- Witness for C1: a Number record (id 515) with a non-matching NA matcher
and a style whose format identifier is 16 classifies as Date. -/
theorem cellType_numeric_records_witness :
    ((515 : Nat) = 189 ∨ (515 : Nat) = 515 ∨ (515 : Nat) = 638) ∧
    cellType ⟨515, 0.0, "", 0, 0⟩ (some fun _ => 16) [] naFalse = (CELL_DATE, []) := by
  refine ⟨Or.inr (Or.inl rfl), ?_⟩
  have h := cellType_numeric_records ⟨515, 0.0, "", 0, 0⟩ (some fun _ => 16) [] naFalse
    (Or.inr (Or.inl rfl))
  rw [h]
  decide

/-- Claim C6: classifying a blank-cell record (id 190 or 513) yields Blank
for every style table, custom date-format set and NA matcher, with no
diagnostic printed. -/
theorem cellType_blank_records (cell : CellData) (styles : Option (Nat → Int))
    (custom : List Int) (na : StringSet)
    (h : cell.id = 190 ∨ cell.id = 513) :
    cellType cell styles custom na = (CELL_BLANK, []) := by
  have hA : ¬(cell.id = 253 ∨ cell.id = 516) := by rcases h with h | h <;> simp [h]
  have hB : ¬(cell.id = 6 ∨ cell.id = 1030) := by rcases h with h | h <;> simp [h]
  have hC : ¬(cell.id = 189 ∨ cell.id = 515 ∨ cell.id = 638) := by
    rcases h with h | h <;> simp [h]
  unfold cellType
  rw [if_neg hA, if_neg hB, if_neg hC, if_pos h]

/-- Witness for C6: a MulBlank record (id 190) with a style table present
and an everything-matching NA matcher still classifies as Blank. -/
theorem cellType_blank_records_witness :
    ((190 : Nat) = 190 ∨ (190 : Nat) = 513) ∧
    cellType ⟨190, 0.0, "x", 1, 3⟩ (some fun _ => 16) [164] naTrue = (CELL_BLANK, []) :=
  ⟨Or.inl rfl,
    cellType_blank_records ⟨190, 0.0, "x", 1, 3⟩ (some fun _ => 16) [164] naTrue (Or.inl rfl)⟩

/-- Claim C8: classifying a record whose id is none of the nine recognized
identifiers never fails: it returns Numeric and prints a diagnostic line
naming the unrecognized record id. -/
theorem cellType_unknown_record (cell : CellData) (styles : Option (Nat → Int))
    (custom : List Int) (na : StringSet)
    (h : cell.id ∉ [253, 516, 6, 1030, 189, 515, 638, 190, 513]) :
    cellType cell styles custom na =
      (CELL_NUMERIC, ["Unknown type: " ++ toString cell.id ++ "\n"]) := by
  simp only [List.mem_cons, List.not_mem_nil, or_false, not_or] at h
  obtain ⟨h1, h2, h3, h4, h5, h6, h7, h8, h9⟩ := h
  unfold cellType
  rw [if_neg (by tauto), if_neg (by tauto), if_neg (by tauto), if_neg (by tauto)]

/-- Witness for C8 at the unrecognized record id 999. -/
theorem cellType_unknown_record_witness :
    ((999 : Nat) ∉ [253, 516, 6, 1030, 189, 515, 638, 190, 513]) ∧
    cellType ⟨999, 0.0, "", 0, 0⟩ none [] naFalse = (CELL_NUMERIC, ["Unknown type: 999\n"]) := by
  refine ⟨by decide, ?_⟩
  have h := cellType_unknown_record ⟨999, 0.0, "", 0, 0⟩ none [] naFalse (by decide)
  rw [h]
  decide

/-- Claim C10: a formula record (id 6 or 1030) is never classified as Date:
the style table and custom set are not consulted, and the result is Blank,
Numeric or Text according to the cached result kind and the NA matcher. -/
theorem cellType_formula_no_date (cell : CellData) (styles : Option (Nat → Int))
    (custom : List Int) (na : StringSet)
    (h : cell.id = 6 ∨ cell.id = 1030) :
    (cellType cell styles custom na).1 ≠ CELL_DATE ∧
    (cellType cell styles custom na).1 =
      (if cell.l = 0 then
        if na.containsNum cell.d then CELL_BLANK else CELL_NUMERIC
       else
        if na.containsStr cell.str then CELL_BLANK else CELL_TEXT) := by
  have hA : ¬(cell.id = 253 ∨ cell.id = 516) := by rcases h with h | h <;> simp [h]
  unfold cellType
  rw [if_neg hA, if_pos h]
  refine ⟨?_, rfl⟩
  split_ifs <;> simp

/-- Witness for C10: a formula record (id 6) with a numeric cached result,
a date-format style (format 16) and a non-matching NA matcher classifies as
Numeric, not Date. -/
theorem cellType_formula_no_date_witness :
    ((6 : Nat) = 6 ∨ (6 : Nat) = 1030) ∧
    (cellType ⟨6, 0.0, "", 0, 0⟩ (some fun _ => 16) [] naFalse).1 ≠ CELL_DATE :=
  ⟨Or.inl rfl,
    (cellType_formula_no_date ⟨6, 0.0, "", 0, 0⟩ (some fun _ => 16) [] naFalse (Or.inl rfl)).1⟩

/-- `colTypeOfString` returns `none` exactly on strings outside the fixed
vocabulary. -/
theorem colTypeOfString_eq_none_iff (s : String) :
    colTypeOfString s = none ↔ s ∉ colTypeVocab := by
  unfold colTypeOfString colTypeVocab
  split_ifs with h1 h2 h3 h4 h5 h6 <;> simp_all

/-- The loop of `colTypeStrings` succeeds when every input is in the
vocabulary, producing the pointwise `colTypeOfString` image. -/
theorem colTypeStringsFrom_ok : ∀ (xs : List String) (i : Nat),
    (∀ s ∈ xs, s ∈ colTypeVocab) →
    ∃ ts, colTypeStringsFrom i xs = Except.ok ts ∧
      List.Forall₂ (fun s t => colTypeOfString s = some t) xs ts := by
  intro xs
  induction xs with
  | nil => exact fun i _ => ⟨[], rfl, List.Forall₂.nil⟩
  | cons s rest ih =>
    intro i h
    have hs : s ∈ colTypeVocab := h s (List.mem_cons_self _ _)
    obtain ⟨t, ht⟩ : ∃ t, colTypeOfString s = some t := by
      rcases ho : colTypeOfString s with _ | t
      · exact absurd ((colTypeOfString_eq_none_iff s).mp ho) (not_not_intro hs)
      · exact ⟨t, rfl⟩
    obtain ⟨ts, hts, hfa⟩ := ih (i + 1) (fun x hx => h x (List.mem_cons_of_mem _ hx))
    refine ⟨t :: ts, ?_, List.Forall₂.cons ht hfa⟩
    simp [colTypeStringsFrom, ht, hts, Except.map]

/-- The loop of `colTypeStrings` fails when some input is outside the
vocabulary, naming an offending string and its 1-based position (offset by
the starting index `i`). -/
theorem colTypeStringsFrom_err : ∀ (xs : List String) (i : Nat),
    (∃ s ∈ xs, s ∉ colTypeVocab) →
    ∃ j, ∃ hj : j < xs.length, xs.get ⟨j, hj⟩ ∉ colTypeVocab ∧
      colTypeStringsFrom i xs = Except.error
        ("Unknown type \x27" ++ xs.get ⟨j, hj⟩ ++ "\x27 at position " ++
          toString (i + j + 1)) := by
  intro xs
  induction xs with
  | nil => intro i h; simp at h
  | cons s rest ih =>
    intro i h
    rcases ho : colTypeOfString s with _ | t
    · refine ⟨0, by simp, (colTypeOfString_eq_none_iff s).mp ho, ?_⟩
      simp [colTypeStringsFrom, ho]
    · have hs : s ∈ colTypeVocab := by
        by_contra hc
        rw [← colTypeOfString_eq_none_iff] at hc
        rw [ho] at hc
        exact Option.noConfusion hc
      obtain ⟨s', hs', hns'⟩ := h
      have hrest : ∃ x ∈ rest, x ∉ colTypeVocab := by
        rcases List.mem_cons.mp hs' with rfl | hmem
        · exact absurd hs hns'
        · exact ⟨s', hmem, hns'⟩
      obtain ⟨j, hj, hmem, heq⟩ := ih (i + 1) hrest
      refine ⟨j + 1, by simpa using Nat.succ_lt_succ hj, ?_, ?_⟩
      · simpa using hmem
      · have hstep : colTypeStringsFrom i (s :: rest) =
            Except.map (fun ts => t :: ts) (colTypeStringsFrom (i + 1) rest) := by
          simp [colTypeStringsFrom, ho]
        have harith : i + 1 + j + 1 = i + (j + 1) + 1 := by omega
        rw [harith] at heq
        rw [hstep, heq]
        rfl

/-- Claim C4: `colTypeStrings` maps each vocabulary string to its
`ColType` by exact, case-sensitive comparison (the six-entry table), and
succeeds exactly when every input is in the vocabulary; otherwise the whole
call fails with an error naming an offending string and its 1-based
position. -/
theorem colTypeStrings_spec (xs : List String) :
    (colTypeOfString "blank" = some COL_BLANK ∧ colTypeOfString "date" = some COL_DATE ∧
     colTypeOfString "numeric" = some COL_NUMERIC ∧ colTypeOfString "text" = some COL_TEXT ∧
     colTypeOfString "list" = some COL_LIST ∧ colTypeOfString "skip" = some COL_SKIP) ∧
    ((∀ s ∈ xs, s ∈ colTypeVocab) →
      ∃ ts, colTypeStrings xs = Except.ok ts ∧
        List.Forall₂ (fun s t => colTypeOfString s = some t) xs ts) ∧
    ((∃ s ∈ xs, s ∉ colTypeVocab) →
      ∃ j, ∃ hj : j < xs.length, xs.get ⟨j, hj⟩ ∉ colTypeVocab ∧
        colTypeStrings xs = Except.error
          ("Unknown type \x27" ++ xs.get ⟨j, hj⟩ ++ "\x27 at position " ++
            toString (j + 1))) := by
  refine ⟨⟨rfl, rfl, rfl, rfl, rfl, rfl⟩, colTypeStringsFrom_ok xs 0, ?_⟩
  intro h
  obtain ⟨j, hj, hmem, heq⟩ := colTypeStringsFrom_err xs 0 h
  have hz : (0 : Nat) + j + 1 = j + 1 := by omega
  rw [hz] at heq
  exact ⟨j, hj, hmem, heq⟩

/-- Witness for C4: parsing ["text", "skip"] succeeds; parsing ["blans"]
fails naming "blans" at position 1. -/
theorem colTypeStrings_spec_witness :
    (∀ s ∈ (["text", "skip"] : List String), s ∈ colTypeVocab) ∧
    (∃ ts, colTypeStrings ["text", "skip"] = Except.ok ts ∧
      List.Forall₂ (fun s t => colTypeOfString s = some t) ["text", "skip"] ts) ∧
    (∃ s ∈ (["blans"] : List String), s ∉ colTypeVocab) ∧
    (∃ j, ∃ hj : j < (["blans"] : List String).length,
      (["blans"] : List String).get ⟨j, hj⟩ ∉ colTypeVocab ∧
      colTypeStrings ["blans"] = Except.error
        ("Unknown type \x27" ++ (["blans"] : List String).get ⟨j, hj⟩ ++
          "\x27 at position " ++ toString (j + 1))) :=
  ⟨by decide, (colTypeStrings_spec ["text", "skip"]).2.1 (by decide),
    by decide, (colTypeStrings_spec ["blans"]).2.2 (by decide)⟩

/-- On equal-length inputs, `removeSkippedColumns` returns exactly the
column/name pairs whose type is not `COL_SKIP`, in order. -/
theorem removeSkippedColumns_eq {α : Type} :
    ∀ (cols : List α) (names : List String) (types : List ColType),
    cols.length = types.length → names.length = types.length →
    removeSkippedColumns cols names types =
      (List.map Prod.fst (List.filter (fun p => p.2 ≠ COL_SKIP) (List.zip cols types)),
       List.map Prod.fst (List.filter (fun p => p.2 ≠ COL_SKIP) (List.zip names types))) := by
  intro cols
  induction cols with
  | nil =>
    intro names types h1 h2
    obtain rfl : types = [] := List.length_eq_zero.mp h1.symm
    obtain rfl : names = [] := List.length_eq_zero.mp h2
    rfl
  | cons c cs ih =>
    intro names types h1 h2
    cases types with
    | nil => simp at h1
    | cons t ts =>
      cases names with
      | nil => simp at h2
      | cons n ns =>
        have ih' := ih ns ts (by simpa using h1) (by simpa using h2)
        by_cases ht : t = COL_SKIP
        · simp [removeSkippedColumns, ht, ih', List.filter_cons]
        · simp [removeSkippedColumns, ht, ih', List.filter_cons]

/-- Zipping with equal-length types and filtering out `COL_SKIP` keeps as
many entries as filtering the type list itself. -/
theorem zip_filter_skip_length {α : Type} :
    ∀ (cols : List α) (types : List ColType),
    cols.length = types.length →
    (List.filter (fun p => p.2 ≠ COL_SKIP) (List.zip cols types)).length =
      (List.filter (fun t => t ≠ COL_SKIP) types).length := by
  intro cols
  induction cols with
  | nil =>
    intro types h
    obtain rfl : types = [] := List.length_eq_zero.mp h.symm
    rfl
  | cons c cs ih =>
    intro types h
    cases types with
    | nil => simp at h
    | cons t ts =>
      have := ih ts (by simpa using h)
      simp only [decide_not] at this
      by_cases ht : t = COL_SKIP <;> simp [List.filter_cons, ht, this]

/-- Claim C7: on an equal-length triple of columns, names and types,
`removeSkippedColumns` returns exactly the columns whose type is not
`COL_SKIP`, paired with their original names, in the original relative
order and with unchanged contents (they are the very elements of the zipped
input), and the output length equals the count of non-Skip type entries. -/
theorem removeSkippedColumns_spec {α : Type} (cols : List α) (names : List String)
    (types : List ColType) (h1 : cols.length = types.length)
    (h2 : names.length = types.length) :
    removeSkippedColumns cols names types =
      (List.map Prod.fst (List.filter (fun p => p.2 ≠ COL_SKIP) (List.zip cols types)),
       List.map Prod.fst (List.filter (fun p => p.2 ≠ COL_SKIP) (List.zip names types))) ∧
    (removeSkippedColumns cols names types).1.length =
      (List.filter (fun t => t ≠ COL_SKIP) types).length := by
  have hmain := removeSkippedColumns_eq cols names types h1 h2
  refine ⟨hmain, ?_⟩
  rw [hmain]
  simp only [List.length_map]
  exact zip_filter_skip_length cols types h1

/-- Witness for C7 at the spec example: three columns with types
[Text, Skip, Numeric] keep the first and third columns and names in
order. -/
theorem removeSkippedColumns_spec_witness :
    (["a", "b", "c"] : List String).length = [COL_TEXT, COL_SKIP, COL_NUMERIC].length ∧
    (["x", "y", "z"] : List String).length = [COL_TEXT, COL_SKIP, COL_NUMERIC].length ∧
    removeSkippedColumns ["a", "b", "c"] ["x", "y", "z"] [COL_TEXT, COL_SKIP, COL_NUMERIC] =
      (["a", "c"], ["x", "z"]) ∧
    (removeSkippedColumns ["a", "b", "c"] ["x", "y", "z"]
      [COL_TEXT, COL_SKIP, COL_NUMERIC]).1.length = 2 := by
  have h := @removeSkippedColumns_spec String ["a", "b", "c"] ["x", "y", "z"]
    [COL_TEXT, COL_SKIP, COL_NUMERIC] rfl rfl
  refine ⟨rfl, rfl, ?_, ?_⟩
  · rw [h.1]; rfl
  · rw [h.2]; rfl
